import Mathlib

/-!
Shallow embedding of the libcaca importer (cucul/import.c).

The importer converts a byte buffer into a canvas.  The file embeds, as
executable Lean definitions, the four entry points of cucul/import.c:

* cucul_import_canvas - dispatch on an explicit format hint, or autodetect;
* import_caca         - the native binary decoder;
* import_text         - the plain text decoder;
* import_ansi         - the ANSI escape-stream decoder, together with its
  helpers parse_tuple and manage_modifiers.

Buffers are lists of byte values (Nat, each < 256 for genuine inputs);
C unsigned 32-bit arithmetic is modelled with explicit reduction modulo
2^32, and C int values are modelled as Int with explicit two's-complement
wrapping where the source can overflow.  Out-of-bounds reads of the input
buffer (which are undefined behaviour in the C source) are modelled as
reading the value 0; the one known out-of-bounds read of import_ansi is
additionally recorded in an explicit instrumentation flag (oobEsc below).

The canvas data structure itself (cucul_canvas_t) and its operations live
outside the sources under verification, so they are modelled from the
specification; every such definition carries a doc comment starting with
"Modelled from the spec:".
-/

set_option maxRecDepth 100000

/-- Modelled from the spec: the color constants of the canvas component
(cucul.h is not among the sources).  The eight base palette colors occupy
indices 0..7, a bright variant is the base index plus 8, and the special
default / transparent colors lie outside the 0..15 range. -/
def CUCUL_COLOR_BLACK : Nat := 0

/-- Modelled from the spec: the blue palette color. -/
def CUCUL_COLOR_BLUE : Nat := 1

/-- Modelled from the spec: the green palette color. -/
def CUCUL_COLOR_GREEN : Nat := 2

/-- Modelled from the spec: the cyan palette color. -/
def CUCUL_COLOR_CYAN : Nat := 3

/-- Modelled from the spec: the red palette color. -/
def CUCUL_COLOR_RED : Nat := 4

/-- Modelled from the spec: the magenta palette color. -/
def CUCUL_COLOR_MAGENTA : Nat := 5

/-- Modelled from the spec: the brown palette color. -/
def CUCUL_COLOR_BROWN : Nat := 6

/-- Modelled from the spec: the light-gray palette color. -/
def CUCUL_COLOR_LIGHTGRAY : Nat := 7

/-- Modelled from the spec: the default color, outside the 0..15 range. -/
def CUCUL_COLOR_DEFAULT : Nat := 16

/-- Modelled from the spec: the transparent color, outside the 0..15 range. -/
def CUCUL_COLOR_TRANSPARENT : Nat := 32

/-- Modelled from the spec: the canvas collaborator.  A width x height grid
of cells, each holding a 32-bit character codepoint and a packed color
attribute, plus the active foreground/background color pair.  Cell storage
is modelled as total functions of the cell coordinates; only the values at
coordinates inside the width x height rectangle are meaningful. -/
structure Canvas where
  width : Nat
  height : Nat
  curFg : Nat
  curBg : Nat
  chars : Nat → Nat → Nat
  attrs : Nat → Nat → Nat

/-- Modelled from the spec: the attribute packing layout is internal to the
canvas component; it is modelled as fg * 2^32 + bg. -/
def pack_attr (fg bg : Nat) : Nat := fg * 4294967296 + bg

/-- Modelled from the spec: cucul_create_canvas.  Creates a blank canvas;
every cell holds the default blank character (the space, codepoint 32).
Allocation failure is not representable in the embedding, so creation
always succeeds. -/
def cucul_create_canvas (width height : Nat) : Canvas where
  width := width
  height := height
  curFg := CUCUL_COLOR_LIGHTGRAY
  curBg := CUCUL_COLOR_BLACK
  chars := fun _ _ => 32
  attrs := fun _ _ => pack_attr CUCUL_COLOR_LIGHTGRAY CUCUL_COLOR_BLACK

/-- Modelled from the spec: cucul_set_color sets the active color pair. -/
def cucul_set_color (cv : Canvas) (fg bg : Nat) : Canvas :=
  { cv with curFg := fg, curBg := bg }

/-- Modelled from the spec: cucul_set_canvas_size resizes the canvas,
preserving existing cell contents inside the old bounds; cells gained by
growth hold the default blank character. -/
def cucul_set_canvas_size (cv : Canvas) (width height : Nat) : Canvas where
  width := width
  height := height
  curFg := cv.curFg
  curBg := cv.curBg
  chars := fun x y => if x < cv.width ∧ y < cv.height then cv.chars x y else 32
  attrs := fun x y =>
    if x < cv.width ∧ y < cv.height then cv.attrs x y
    else pack_attr CUCUL_COLOR_LIGHTGRAY CUCUL_COLOR_BLACK

/-- Modelled from the spec: cucul_putchar writes a character at unsigned
coordinates, implicitly applying the active color; writes outside the
current bounds are ignored. -/
def cucul_putchar (cv : Canvas) (x y : Nat) (ch : Nat) : Canvas :=
  if x < cv.width ∧ y < cv.height then
    { cv with
      chars := fun a b => if a = x ∧ b = y then ch else cv.chars a b,
      attrs := fun a b =>
        if a = x ∧ b = y then pack_attr cv.curFg cv.curBg else cv.attrs a b }
  else cv

/-- Modelled from the spec: the internal write used by the ANSI decoder,
taking signed coordinates (the decoder tracks the cursor in C int
variables); writes outside the current bounds are ignored. -/
def cucul_putchar32 (cv : Canvas) (x y : Int) (ch : Nat) : Canvas :=
  if 0 ≤ x ∧ x < (cv.width : Int) ∧ 0 ≤ y ∧ y < (cv.height : Int) then
    cucul_putchar cv x.toNat y.toNat ch
  else cv

/-- Modelled from the spec: the CP437-to-Unicode translation table lives in
a source file outside src/; it is modelled as the identity embedding, which
agrees with the real table on the printable ASCII range (the only bytes the
verified properties exercise). -/
def cucul_cp437_to_utf32 (b : Nat) : Nat := b

/-- The plain text decoder loop of import_text (import.c lines 171-198):
carriage returns are dropped, a newline resets x and bumps y, any other
byte grows the canvas as needed and is written at (x, y). -/
def import_text_go : List Nat → Nat → Nat → Nat → Nat → Canvas → Canvas
  | [], _, _, _, _, cv => cv
  | ch :: rest, width, height, x, y, cv =>
    if ch = 13 then import_text_go rest width height x y cv
    else if ch = 10 then import_text_go rest width height 0 (y + 1) cv
    else
      let width2 := if x ≥ width then x + 1 else width
      let height2 := if y ≥ height then y + 1 else height
      let cv2 :=
        if x ≥ width ∨ y ≥ height then cucul_set_canvas_size cv width2 height2
        else cv
      import_text_go rest width2 height2 (x + 1) y (cucul_putchar cv2 x y ch)

/-- import_text (import.c lines 162-201): starts from a 1 x 1 canvas with
the default/transparent color pair and folds the bytes through the loop. -/
def import_text (data : List Nat) : Canvas :=
  import_text_go data 1 1 0 0
    (cucul_set_color (cucul_create_canvas 1 1)
      CUCUL_COLOR_DEFAULT CUCUL_COLOR_TRANSPARENT)

/-- Big-endian 32-bit read of four consecutive bytes, as in import_caca. -/
def read_be32 (buf : List Nat) (off : Nat) : Nat :=
  buf.getD off 0 * 16777216 + buf.getD (off + 1) 0 * 65536 +
    buf.getD (off + 2) 0 * 256 + buf.getD (off + 3) 0

/-- import_caca (import.c lines 116-160): validates the 16-byte header
(the two magic words CACA and CANV, non-zero big-endian width and height,
and the length equation, which the C source computes in unsigned 32-bit
arithmetic, hence the explicit reduction modulo 2^32), then decodes each
cell's character and attribute as big-endian 32-bit fields of consecutive
8-byte records in row-major order. -/
def import_caca (data : List Nat) : Option Canvas :=
  if data.length < 16 then none
  else if ¬(data.getD 0 0 = 67 ∧ data.getD 1 0 = 65 ∧
            data.getD 2 0 = 67 ∧ data.getD 3 0 = 65) then none
  else if ¬(data.getD 4 0 = 67 ∧ data.getD 5 0 = 65 ∧
            data.getD 6 0 = 78 ∧ data.getD 7 0 = 86) then none
  else
    let width := read_be32 data 8
    let height := read_be32 data 12
    if width = 0 ∨ height = 0 then none
    else if data.length ≠ (16 + width * height * 8) % 4294967296 then none
    else
      some { cucul_create_canvas width height with
        chars := fun x y => read_be32 data (16 + 8 * (y * width + x)),
        attrs := fun x y => read_be32 data (16 + 4 + 8 * (y * width + x)) }

/-- The scan of cucul_import_canvas lines 76-81: does the buffer contain an
ESC byte immediately followed by a left bracket?  The C loop tests the
pairs (i, i+1) for every i < size - 1. -/
def esc_scan : List Nat → Bool
  | a :: b :: rest => (a == 27 && b == 91) || esc_scan (b :: rest)
  | _ => false

/-- The three decoders a buffer can be dispatched to. -/
inductive Format where
  | caca : Format
  | ansi : Format
  | text : Format
deriving DecidableEq

/-- The autodetection order of cucul_import_canvas lines 66-84: native
binary when the first three bytes are C, A, C and the fourth byte is NOT A
(the source's literal test); otherwise ANSI when an ESC-bracket pair occurs
anywhere; otherwise plain text. -/
def autodetect (buf : List Nat) : Format :=
  if 4 ≤ buf.length ∧ buf.getD 0 0 = 67 ∧ buf.getD 1 0 = 65 ∧
      buf.getD 2 0 = 67 ∧ buf.getD 3 0 ≠ 65 then Format.caca
  else if esc_scan buf then Format.ansi
  else Format.text

/-- The detection rule for the native format exactly as the specification
sentence words it: first three bytes equal the 3-byte signature C, A, C and
the fourth byte differs from the signature's FIRST byte (that is, from C).
Kept separate from autodetect so the two can be compared. -/
def spec_worded_caca_detect (buf : List Nat) : Bool :=
  decide (4 ≤ buf.length ∧ buf.getD 0 0 = 67 ∧ buf.getD 1 0 = 65 ∧
    buf.getD 2 0 = 67 ∧ buf.getD 3 0 ≠ 67)

/-- Byte-wise lower casing, as strcasecmp performs on each character. -/
def byte_lower (b : Nat) : Nat := if 65 ≤ b ∧ b ≤ 90 then b + 32 else b

/-- Case-insensitive equality of two byte strings (the strcasecmp tests of
cucul_import_canvas, phrased as equality). -/
def strcaseeq (a b : List Nat) : Bool :=
  a.map byte_lower == b.map byte_lower

/-- The end-of-arguments sentinel of the ANSI tuple parser (0x1337). -/
def END_ARG : Nat := 4919

/-- IS_ALPHA from import.c line 203: any byte between A (65) and z (122),
bracket and punctuation characters in between included. -/
def IS_ALPHA (b : Nat) : Bool := decide (65 ≤ b ∧ b ≤ 122)

/-- A byte the C library's atoi skips as leading white space. -/
def is_space_byte (b : Nat) : Bool := b == 32 || (decide (9 ≤ b) && decide (b ≤ 13))

/-- The digit-accumulation part of atoi: consume leading decimal digits. -/
def atoi_digits : List Nat → Int → Int
  | [], acc => acc
  | b :: rest, acc =>
    if 48 ≤ b ∧ b ≤ 57 then atoi_digits rest (acc * 10 + ((b : Int) - 48))
    else acc

/-- The C library's atoi on a byte string: skip white space, read an
optional sign, then leading decimal digits (0 when there are none). -/
def atoi (s : List Nat) : Int :=
  match s.dropWhile is_space_byte with
  | 43 :: rest => atoi_digits rest 0
  | 45 :: rest => - atoi_digits rest 0
  | s1 => atoi_digits s1 0

/-- Conversion of a C int value to the unsigned 32-bit value it is stored
as in the argv array of unsigned int. -/
def to_u32 (z : Int) : Nat := (z % 4294967296).toNat

/-- Two's-complement wrapping of an integer into a signed 32-bit value, as
happens when C unsigned int arithmetic results are stored back into int
variables. -/
def wrap32 (z : Int) : Int :=
  if z % 4294967296 < 2147483648 then z % 4294967296
  else z % 4294967296 - 4294967296

/-- Clamping of a cursor coordinate at zero (the `if (v < 0) v = 0;` steps
of import_ansi). -/
def clamp0 (z : Int) : Int := if z < 0 then 0 else z

/-- The outcome of parse_tuple: the committed argument values in order (the
END_ARG terminator is left implicit), the number of bytes consumed (the C
return value), and, as verification instrumentation, the largest index of
the ret array the C code writes to during the call (the 1024-entry argv
array overflows exactly when this reaches 1024). -/
structure TupleResult where
  args : List Nat
  consumed : Nat
  maxIdx : Nat
deriving DecidableEq

/-- The loop of parse_tuple (import.c lines 355-393).  The accumulator acc
holds the committed values in reverse; t mirrors the C write index; nbr is
the current numeric scratch string; pos is the loop counter i.  On an
alphabetic byte the pending number (if any) is committed and the function
returns the byte offset of that final letter; a semicolon commits the
pending number; any other byte is appended to the scratch string.  Each
commit writes ret[t] and then ret[t+1] (the END_ARG terminator), which the
maxIdx field records. -/
def parse_tuple_go : List Nat → Nat → List Nat → Nat → List Nat → Nat → TupleResult
  | [], pos, _, _, acc, mx => ⟨acc.reverse, pos, mx⟩
  | b :: rest, pos, nbr, t, acc, mx =>
    if IS_ALPHA b then
      if nbr ≠ [] then ⟨(to_u32 (atoi nbr) :: acc).reverse, pos, max mx (t + 1)⟩
      else ⟨acc.reverse, pos, max mx t⟩
    else if b ≠ 59 then parse_tuple_go rest (pos + 1) (nbr ++ [b]) t acc mx
    else parse_tuple_go rest (pos + 1) [] (t + 1)
      (to_u32 (atoi nbr) :: acc) (max mx (t + 1))

/-- parse_tuple (import.c lines 355-393) over the byte region that starts
right after the ESC-bracket introducer. -/
def parse_tuple (buffer : List Nat) : TupleResult :=
  parse_tuple_go buffer 0 [] 0 [] 0

/-- The color-modifier state of import_ansi: the foreground, background,
their saved copies, and the bold and reverse flags (uint8 values in C). -/
structure ModState where
  fg : Nat
  bg : Nat
  save_fg : Nat
  save_bg : Nat
  bold : Nat
  reverse : Nat
deriving DecidableEq

/-- The ansi2cucul palette of manage_modifiers (import.c lines 398-408):
black, red, green, brown, blue, magenta, cyan, light gray, in cucul color
values. -/
def ansi2cucul : List Nat :=
  [CUCUL_COLOR_BLACK, CUCUL_COLOR_RED, CUCUL_COLOR_GREEN, CUCUL_COLOR_BROWN,
   CUCUL_COLOR_BLUE, CUCUL_COLOR_MAGENTA, CUCUL_COLOR_CYAN,
   CUCUL_COLOR_LIGHTGRAY]

/-- manage_modifiers (import.c lines 395-455): interpret one SGR code.
Codes 4 and 5 (underline, blink) fall to the final catch-all, exactly as
the C switch cases that only break. -/
def manage_modifiers (i : Int) (m : ModState) : ModState :=
  if 30 ≤ i ∧ i ≤ 37 then { m with fg := ansi2cucul.getD (i - 30).toNat 0 }
  else if 40 ≤ i ∧ i ≤ 47 then { m with bg := ansi2cucul.getD (i - 40).toNat 0 }
  else if 90 ≤ i ∧ i ≤ 97 then { m with fg := ansi2cucul.getD (i - 90).toNat 0 + 8 }
  else if 100 ≤ i ∧ i ≤ 107 then { m with bg := ansi2cucul.getD (i - 100).toNat 0 + 8 }
  else if i = 0 then
    { m with fg := CUCUL_COLOR_DEFAULT, bg := CUCUL_COLOR_DEFAULT,
             bold := 0, reverse := 0 }
  else if i = 1 then { m with bold := 1 }
  else if i = 7 then { m with reverse := 1 }
  else if i = 8 then
    { m with save_fg := m.fg, save_bg := m.bg,
             fg := CUCUL_COLOR_TRANSPARENT, bg := CUCUL_COLOR_TRANSPARENT }
  else if i = 28 then { m with fg := m.save_fg, bg := m.save_bg }
  else if i = 39 then { m with fg := CUCUL_COLOR_DEFAULT }
  else if i = 49 then { m with bg := CUCUL_COLOR_DEFAULT }
  else m

/-- The full mutable state of import_ansi: the canvas, the cursor, the
(constant) width and the growing height, the saved cursor slot, the color
state, and one instrumentation flag oobEsc that records whether the escape
introducer test at import.c line 245 ever evaluated buffer[i + 1] with
i + 1 equal to the buffer size (an out-of-bounds read in the C source). -/
structure AnsiState where
  cv : Canvas
  x : Int
  y : Int
  width : Int
  height : Int
  save_x : Int
  save_y : Int
  mods : ModState
  oobEsc : Bool

/-- The initial state of import_ansi (import.c lines 213-225): an 80 x 25
canvas, cursor at the origin, light gray on black, bold and reverse off. -/
def ansi_init : AnsiState where
  cv := cucul_set_color (cucul_create_canvas 80 25)
    CUCUL_COLOR_LIGHTGRAY CUCUL_COLOR_BLACK
  x := 0
  y := 0
  width := 80
  height := 25
  save_x := 0
  save_y := 0
  mods := ⟨CUCUL_COLOR_LIGHTGRAY, CUCUL_COLOR_BLACK,
           CUCUL_COLOR_LIGHTGRAY, CUCUL_COLOR_BLACK, 0, 0⟩
  oobEsc := false

/-- The SAUCE-trailer test of import.c lines 231-232: the byte at offset i
is 0x1A, at least 8 bytes remain, and the next seven bytes spell SAUCE00. -/
def sauce_at (buf : List Nat) (i : Nat) : Bool :=
  decide (buf.getD i 0 = 26) && decide (i + 8 ≤ buf.length) &&
    decide ((buf.drop (i + 1)).take 7 = [83, 65, 85, 67, 69, 48, 48])

/-- Pasting one ordinary character (import.c lines 331-347): wrap the
cursor at the canvas width, grow the canvas height if needed, write the
CP437-translated byte, advance the cursor. -/
def ansi_putc (b : Nat) (s : AnsiState) : AnsiState :=
  let s1 := if s.x ≥ s.width then { s with x := 0, y := s.y + 1 } else s
  let s2 :=
    if s1.y ≥ s1.height then
      { s1 with height := s1.y + 1,
                cv := cucul_set_canvas_size s1.cv s1.width.toNat (s1.y + 1).toNat }
    else s1
  { s2 with cv := cucul_putchar32 s2.cv s2.x s2.y (cucul_cp437_to_utf32 b),
            x := s2.x + 1 }

/-- The clear-to-end-of-line loop of the K command (import.c lines 307-308):
write count spaces starting at column j of row y. -/
def clear_eol_go (cv : Canvas) (y : Int) : Int → Nat → Canvas
  | _, 0 => cv
  | j, count + 1 => clear_eol_go (cucul_putchar32 cv j y 32) y (j + 1) count

/-- The effective argument list a command sees: the C code counts arguments
up to the first END_ARG slot, so a parsed value that happens to equal the
sentinel 4919 cuts the list short. -/
def tuple_eff (tr : TupleResult) : List Nat :=
  tr.args.takeWhile (fun v => decide (v ≠ END_ARG))

/-- The numeric argument of the one-parameter cursor commands: the first
effective argument, or 1 when there is none (`argc ? argv[0] : 1`). -/
def tuple_n (tr : TupleResult) : Int :=
  if (tuple_eff tr).length ≠ 0 then ((tuple_eff tr).getD 0 0 : Int) else 1

/-- The raw first slot of the argv array (what the J command reads without
checking argc): the first committed value, or END_ARG when none exists. -/
def tuple_raw0 (tr : TupleResult) : Nat := tr.args.getD 0 END_ARG

/-- The command dispatch of import_ansi (import.c lines 266-326), indexed by
the final letter c.  Cursor coordinates follow the C source's mixed
signed/unsigned arithmetic: argument values are unsigned 32-bit, the
cursor variables are int, and every arithmetic result is wrapped back into
a signed 32-bit value. -/
def ansi_dispatch (c : Nat) (tr : TupleResult) (s : AnsiState) : AnsiState :=
  match c with
  | 102 =>
    if (tuple_eff tr).length = 0 then { s with x := 0, y := 0 }
    else if (tuple_eff tr).length = 1 then
      { s with y := wrap32 (((tuple_eff tr).getD 0 0 : Int) - 1), x := 0 }
    else if (tuple_eff tr).length = 2 then
      { s with y := wrap32 (((tuple_eff tr).getD 0 0 : Int) - 1),
               x := wrap32 (((tuple_eff tr).getD 1 0 : Int) - 1) }
    else s
  | 72 =>
    if (tuple_eff tr).length = 0 then { s with x := 0, y := 0 }
    else if (tuple_eff tr).length = 1 then
      { s with y := wrap32 (((tuple_eff tr).getD 0 0 : Int) - 1), x := 0 }
    else if (tuple_eff tr).length = 2 then
      { s with y := wrap32 (((tuple_eff tr).getD 0 0 : Int) - 1),
               x := wrap32 (((tuple_eff tr).getD 1 0 : Int) - 1) }
    else s
  | 65 => { s with y := clamp0 (wrap32 (s.y - tuple_n tr)) }
  | 66 => { s with y := wrap32 (s.y + tuple_n tr) }
  | 67 => { s with x := wrap32 (s.x + tuple_n tr) }
  | 68 => { s with x := clamp0 (wrap32 (s.x - tuple_n tr)) }
  | 115 => { s with save_x := s.x, save_y := s.y }
  | 117 => { s with x := s.save_x, y := s.save_y }
  | 74 => if tuple_raw0 tr = 2 then { s with x := 0, y := 0 } else s
  | 75 =>
    { s with cv := clear_eol_go s.cv s.y s.x (s.width - s.x).toNat,
             x := s.width }
  | 109 =>
    let m := (tuple_eff tr).foldl (fun acc v => manage_modifiers (wrap32 v) acc) s.mods
    let m2 := { m with
      fg := if m.bold ≠ 0 ∧ m.fg < 8 then m.fg + 8 else m.fg,
      bg := if m.bold ≠ 0 ∧ m.bg < 8 then m.bg + 8 else m.bg }
    { s with mods := m2,
             cv := if m2.reverse ≠ 0 then cucul_set_color s.cv m2.bg m2.fg
                   else cucul_set_color s.cv m2.fg m2.bg }
  | _ => s

/-- The main loop of import_ansi (import.c lines 227-348), with an explicit
fuel parameter for termination (the index strictly increases, so a fuel of
one more than the buffer length never runs out when starting at zero).
The order of tests matches the source: SAUCE trailer, carriage return,
newline, escape introducer, ordinary character.  When the current byte is
ESC the source reads buffer[i + 1] unconditionally; the embedding records
in oobEsc whenever that read falls outside the buffer and models its value
as 0. -/
def ansi_loop : Nat → List Nat → Nat → AnsiState → AnsiState
  | 0, _, _, s => s
  | fuel + 1, buf, i, s =>
    if i < buf.length then
      if sauce_at buf i then s
      else
        let b := buf.getD i 0
        if b = 13 then ansi_loop fuel buf (i + 1) s
        else if b = 10 then ansi_loop fuel buf (i + 1) { s with x := 0, y := s.y + 1 }
        else if b = 27 then
          let s1 := { s with oobEsc := s.oobEsc || decide (i + 1 ≥ buf.length) }
          if buf.getD (i + 1) 0 = 91 then
            let rest := buf.drop (i + 2)
            let c := (rest.find? IS_ALPHA).getD 0
            let tr := parse_tuple rest
            ansi_loop fuel buf (i + 3 + tr.consumed) (ansi_dispatch c tr s1)
          else ansi_loop fuel buf (i + 1) (ansi_putc b s1)
        else ansi_loop fuel buf (i + 1) (ansi_putc b s)
    else s

/-- Running the import_ansi state machine from its initial state, exposing
the full final state (cursor, colors, instrumentation) for verification. -/
def ansi_run (buf : List Nat) : AnsiState :=
  ansi_loop (buf.length + 1) buf 0 ansi_init

/-- import_ansi (import.c lines 208-351): the canvas the decoder returns. -/
def import_ansi (buf : List Nat) : Canvas := (ansi_run buf).cv

/-- cucul_import_canvas (import.c lines 51-87): reject empty input, match
the explicit format hints case-insensitively in source order, autodetect on
the empty hint, and reject unknown hints.  The format argument is the byte
string of the hint; the text, ANSI and plain-text decoders are total, so
their results are always returned as a canvas. -/
def cucul_import_canvas (data : List Nat) (format : List Nat) : Option Canvas :=
  if data.length = 0 then none
  else if strcaseeq [99, 97, 99, 97] format then import_caca data
  else if strcaseeq [116, 101, 120, 116] format then some (import_text data)
  else if strcaseeq [97, 110, 115, 105] format then some (import_ansi data)
  else if strcaseeq [] format then
    match autodetect data with
    | Format.caca => import_caca data
    | Format.ansi => some (import_ansi data)
    | Format.text => some (import_text data)
  else none

/-!
Theorems about the claims, with their helper lemmas.
-/

/-- Helper: two's-complement wrapping is the identity on values already in
the signed 32-bit range. -/
theorem wrap32_eq_of_bounds (z : Int) (h1 : -2147483648 ≤ z)
    (h2 : z < 2147483648) : wrap32 z = z := by
  unfold wrap32
  split <;> omega

/-- Helper: the effective first argument of a tuple whose first committed
value is not the END_ARG sentinel. -/
theorem tuple_n_cons (n : Nat) (r : List Nat) (k m : Nat) (h : n ≠ 4919) :
    tuple_n ⟨n :: r, k, m⟩ = n := by
  unfold tuple_n tuple_eff END_ARG
  simp [List.takeWhile_cons, h]

/-- Helper: running the tuple parser over n semicolons followed by a final
letter writes the argv array up to index t + n (counting from write index
t with an empty scratch string). -/
theorem parse_tuple_go_semis (n : Nat) : ∀ pos t acc mx,
    (parse_tuple_go (List.replicate n 59 ++ [109]) pos [] t acc mx).maxIdx
      = max mx (t + n) := by
  induction n with
  | zero =>
    intro pos t acc mx
    simp [parse_tuple_go, IS_ALPHA]
  | succ k ih =>
    intro pos t acc mx
    have step : parse_tuple_go (List.replicate (k + 1) 59 ++ [109]) pos [] t acc mx
        = parse_tuple_go (List.replicate k 59 ++ [109]) (pos + 1) [] (t + 1)
            (to_u32 (atoi []) :: acc) (max mx (t + 1)) := by
      rw [List.replicate_succ, List.cons_append]
      rfl
    rw [step, ih]
    omega

/-- C1: a buffer that autodetection dispatches to the native binary decoder
(size at least 4, bytes C, A, C, and a fourth byte other than A) is always
rejected by import_caca, whose own magic check demands a fourth byte equal
to A; hence an autodetected native-binary import never succeeds and the
whole import returns the error value. -/
theorem c1_autodetected_caca_import_never_succeeds (buf : List Nat)
    (h : 4 ≤ buf.length ∧ buf.getD 0 0 = 67 ∧ buf.getD 1 0 = 65 ∧
      buf.getD 2 0 = 67 ∧ buf.getD 3 0 ≠ 65) :
    import_caca buf = none ∧ cucul_import_canvas buf [] = none := by
  obtain ⟨h4, h0, h1, h2, h3⟩ := h
  have hcaca : import_caca buf = none := by
    unfold import_caca
    by_cases hs : buf.length < 16
    · rw [if_pos hs]
    · have hm : ¬(buf.getD 0 0 = 67 ∧ buf.getD 1 0 = 65 ∧
          buf.getD 2 0 = 67 ∧ buf.getD 3 0 = 65) := fun hc => h3 hc.2.2.2
      rw [if_neg hs, if_pos hm]
  refine ⟨hcaca, ?_⟩
  have hlen : ¬(buf.length = 0) := by omega
  have hdet : autodetect buf = Format.caca := by
    unfold autodetect
    rw [if_pos ⟨h4, h0, h1, h2, h3⟩]
  unfold cucul_import_canvas
  rw [if_neg hlen, if_neg (by decide), if_neg (by decide), if_neg (by decide),
    if_pos (by decide), hdet]
  exact hcaca

/-- C1 witness: the four-byte buffer C, A, C, B satisfies the autodetection
condition and both import functions reject it. -/
theorem c1_witness :
    (4 ≤ [67, 65, 67, 66].length ∧ [67, 65, 67, 66].getD 0 0 = 67 ∧
      [67, 65, 67, 66].getD 1 0 = 65 ∧ [67, 65, 67, 66].getD 2 0 = 67 ∧
      [67, 65, 67, 66].getD 3 0 ≠ 65) ∧
    (import_caca [67, 65, 67, 66] = none ∧
      cucul_import_canvas [67, 65, 67, 66] [] = none) :=
  ⟨by decide, c1_autodetected_caca_import_never_succeeds [67, 65, 67, 66] (by decide)⟩

/-- C2: the code does NOT treat an empty SGR parameter tuple as code 0.
After ESC [ m the foreground is still light gray and the background still
black (no reset to the default color), and a previously set reverse flag
survives ESC [ m, while ESC [ 0 m does reset both colors to the default.
This exhibits the divergence between the code and the claim. -/
theorem c2_empty_sgr_tuple_is_not_reset :
    (ansi_run [27, 91, 109]).mods.fg = CUCUL_COLOR_LIGHTGRAY ∧
    (ansi_run [27, 91, 109]).mods.bg = CUCUL_COLOR_BLACK ∧
    (ansi_run [27, 91, 48, 109]).mods.fg = CUCUL_COLOR_DEFAULT ∧
    (ansi_run [27, 91, 48, 109]).mods.bg = CUCUL_COLOR_DEFAULT ∧
    (ansi_run [27, 91, 55, 109, 27, 91, 109]).mods.reverse = 1 := by decide

/-- C3 counterexample: the bold promotion is stored destructively into the
decoder's color state.  After ESC [ 1 m alone the stored foreground is 15
(bright light gray) and the stored background is 8 (bright black), not the
unpromoted 7 and 0; and after ESC [ 1 m ESC [ 8 m the pair saved by SGR
code 8 holds the promoted foreground 15, not the base color 7 the claim
requires. -/
theorem c3_counterexample_promotion_stored_in_state :
    (ansi_run [27, 91, 49, 109]).mods.fg = 15 ∧
    (ansi_run [27, 91, 49, 109]).mods.bg = 8 ∧
    (ansi_run [27, 91, 49, 109, 27, 91, 56, 109]).mods.save_fg = 15 := by decide

/-- C3 (amended): the modifier interpreter itself, on SGR code 1, changes
nothing but the bold flag; the +8 promotion happens afterwards, at the end
of each SGR command, and is written back into the stored state. -/
theorem c3_sgr_code_1_only_sets_bold_flag (m : ModState) :
    manage_modifiers 1 m = { m with bold := 1 } := rfl

/-- C4 counterexample: the buffer C, A, C, C is dispatched to the native
binary decoder although its fourth byte equals the signature's first byte
(C), so the claim's rule (fourth byte must differ from the signature's
FIRST byte) does not describe the code; the code compares the fourth byte
against A, the signature's second byte. -/
theorem c4_counterexample_fourth_byte_inequality :
    autodetect [67, 65, 67, 67] = Format.caca ∧
    spec_worded_caca_detect [67, 65, 67, 67] = false := by decide

/-- C4 (amended): with an empty hint, detection follows strict priority:
native binary exactly when the buffer has at least 4 bytes, starts with
C, A, C and its fourth byte differs from A (the second signature byte, not
the first); otherwise ANSI exactly when an ESC byte immediately followed
by a left bracket occurs anywhere; otherwise plain text. -/
theorem c4_detection_strict_priority (buf : List Nat) :
    (autodetect buf = Format.caca ↔
      (4 ≤ buf.length ∧ buf.getD 0 0 = 67 ∧ buf.getD 1 0 = 65 ∧
        buf.getD 2 0 = 67 ∧ buf.getD 3 0 ≠ 65)) ∧
    (autodetect buf = Format.ansi ↔
      (¬(4 ≤ buf.length ∧ buf.getD 0 0 = 67 ∧ buf.getD 1 0 = 65 ∧
        buf.getD 2 0 = 67 ∧ buf.getD 3 0 ≠ 65) ∧ esc_scan buf = true)) ∧
    (autodetect buf = Format.text ↔
      (¬(4 ≤ buf.length ∧ buf.getD 0 0 = 67 ∧ buf.getD 1 0 = 65 ∧
        buf.getD 2 0 = 67 ∧ buf.getD 3 0 ≠ 65) ∧ esc_scan buf = false)) := by
  by_cases hA : 4 ≤ buf.length ∧ buf.getD 0 0 = 67 ∧ buf.getD 1 0 = 65 ∧
      buf.getD 2 0 = 67 ∧ buf.getD 3 0 ≠ 65
  · have e : autodetect buf = Format.caca := by
      unfold autodetect
      rw [if_pos hA]
    refine ⟨⟨fun _ => hA, fun _ => e⟩, ⟨?_, ?_⟩, ⟨?_, ?_⟩⟩
    · intro hq
      rw [e] at hq
      exact absurd hq (by decide)
    · intro hr
      exact absurd hA hr.1
    · intro hq
      rw [e] at hq
      exact absurd hq (by decide)
    · intro hr
      exact absurd hA hr.1
  · by_cases hE : esc_scan buf = true
    · have e : autodetect buf = Format.ansi := by
        unfold autodetect
        rw [if_neg hA, if_pos hE]
      refine ⟨⟨?_, ?_⟩, ⟨fun _ => ⟨hA, hE⟩, fun _ => e⟩, ⟨?_, ?_⟩⟩
      · intro hq
        rw [e] at hq
        exact absurd hq (by decide)
      · intro hc
        exact absurd hc hA
      · intro hq
        rw [e] at hq
        exact absurd hq (by decide)
      · intro hr
        rw [hr.2] at hE
        exact absurd hE (by decide)
    · have hEf : esc_scan buf = false := by
        cases hq : esc_scan buf
        · rfl
        · exact absurd hq hE
      have e : autodetect buf = Format.text := by
        unfold autodetect
        rw [if_neg hA, if_neg hE]
      refine ⟨⟨?_, ?_⟩, ⟨?_, ?_⟩, ⟨fun _ => ⟨hA, hEf⟩, fun _ => e⟩⟩
      · intro hq
        rw [e] at hq
        exact absurd hq (by decide)
      · intro hc
        exact absurd hc hA
      · intro hq
        rw [e] at hq
        exact absurd hq (by decide)
      · intro hr
        exact absurd hr.2 hE

/-- C5: the native decoder's length validation is computed in unsigned
32-bit arithmetic, so it is NOT the exact equation the claim states.  The
16-byte buffer with magics CACA, CANV, width 2^29 and height 1 passes
every header check (the product 16 + 2^29 * 1 * 8 overflows to 16) and a
canvas is returned, although the exact equation 16 = 16 + 2^29 * 8 is
false; in the C source the cell loop then reads far beyond the buffer. -/
theorem c5_overflowing_length_check_accepts_header :
    (import_caca [67, 65, 67, 65, 67, 65, 78, 86,
      32, 0, 0, 0, 0, 0, 0, 1]).isSome = true ∧
    (16 : Nat) ≠ 16 + 536870912 * 1 * 8 := by decide

/-- C6: the fixed 1024-entry argv array of the ANSI escape parser can be
overrun: on the parameter bytes of the escape sequence ESC [ followed by
1025 semicolons and the final letter m, parse_tuple performs a write at an
index of at least 1024 of the argument array. -/
theorem c6_parse_tuple_argv_overflow :
    1024 ≤ (parse_tuple (List.replicate 1025 59 ++ [109])).maxIdx := by
  unfold parse_tuple
  rw [parse_tuple_go_semis 1025 0 0 [] 0]
  omega

/-- C7: the escape-introducer test of import_ansi reads buffer[i + 1] even
when i + 1 equals the buffer size: on the one-byte input consisting of the
single ESC byte, the decoder's read of the following byte falls outside
the buffer (recorded by the oobEsc instrumentation flag), refuting the
claim that every read uses an index strictly below the input size. -/
theorem c7_escape_test_reads_past_end_of_buffer :
    (ansi_run [27]).oobEsc = true := by decide

/-- C8: a cursor-up command (final byte A) with argument n sets the row to
max(0, y - n), and a cursor-left command (final byte D) sets the column to
max(0, x - n), provided the argument is not the parser sentinel value and
the subtraction stays inside the signed 32-bit range (outside it the C
source wraps around instead). -/
theorem c8_cursor_up_left_clamp_at_zero (s : AnsiState) (n : Nat)
    (r : List Nat) (k m : Nat) (h0 : n ≠ 4919)
    (h1 : -2147483648 ≤ s.y - (n : Int)) (h2 : s.y - (n : Int) < 2147483648)
    (h3 : -2147483648 ≤ s.x - (n : Int)) (h4 : s.x - (n : Int) < 2147483648) :
    (ansi_dispatch 65 ⟨n :: r, k, m⟩ s).y = max 0 (s.y - (n : Int)) ∧
    (ansi_dispatch 68 ⟨n :: r, k, m⟩ s).x = max 0 (s.x - (n : Int)) := by
  have htn : tuple_n ⟨n :: r, k, m⟩ = n := tuple_n_cons n r k m h0
  constructor
  · have e : (ansi_dispatch 65 ⟨n :: r, k, m⟩ s).y
        = clamp0 (wrap32 (s.y - tuple_n ⟨n :: r, k, m⟩)) := rfl
    rw [e, htn, wrap32_eq_of_bounds _ h1 h2]
    unfold clamp0
    split <;> omega
  · have e : (ansi_dispatch 68 ⟨n :: r, k, m⟩ s).x
        = clamp0 (wrap32 (s.x - tuple_n ⟨n :: r, k, m⟩)) := rfl
    rw [e, htn, wrap32_eq_of_bounds _ h3 h4]
    unfold clamp0
    split <;> omega

/-- C8 witness: from a state with cursor (3, 5), the commands ESC [ 10 A
and ESC [ 10 D clamp the row and the column at zero. -/
theorem c8_witness :
    (ansi_dispatch 65 ⟨[10], 0, 0⟩ { ansi_init with x := 3, y := 5 }).y
      = max 0 (({ ansi_init with x := 3, y := 5 } : AnsiState).y - ((10 : Nat) : Int)) ∧
    (ansi_dispatch 68 ⟨[10], 0, 0⟩ { ansi_init with x := 3, y := 5 }).x
      = max 0 (({ ansi_init with x := 3, y := 5 } : AnsiState).x - ((10 : Nat) : Int)) :=
  c8_cursor_up_left_clamp_at_zero { ansi_init with x := 3, y := 5 } 10 [] 0 0
    (by decide) (by decide) (by decide) (by decide) (by decide)

/-- C9 counterexample: the SAUCE marker does not truncate decoding when it
sits inside an escape sequence's parameter region.  In the buffer
ESC [ 0x1A S A U C E 0 0 the marker starts at offset 2, yet the bytes A
and U from offsets 4 and 5 (at and after the marker) are written into the
canvas at cells (0,0) and (1,0). -/
theorem c9_counterexample_marker_inside_escape_is_skipped :
    sauce_at [27, 91, 26, 83, 65, 85, 67, 69, 48, 48] 2 = true ∧
    (import_ansi [27, 91, 26, 83, 65, 85, 67, 69, 48, 48]).chars 0 0 = 65 ∧
    (import_ansi [27, 91, 26, 83, 65, 85, 67, 69, 48, 48]).chars 1 0 = 85 := by decide

/-- C9 (amended): whenever the decoder's top-level scan reaches an offset
where the byte 0x1A is immediately followed by the seven bytes SAUCE00
(all within the buffer), decoding terminates at that offset with the state
built so far: no further byte is examined or written. -/
theorem c9_sauce_marker_stops_the_scan (buf : List Nat) (i : Nat)
    (s : AnsiState) (fuel : Nat) (h : sauce_at buf i = true) :
    ansi_loop (fuel + 1) buf i s = s := by
  have h' := h
  simp only [sauce_at, Bool.and_eq_true, decide_eq_true_eq] at h'
  obtain ⟨⟨_, hle⟩, _⟩ := h'
  have hlt : i < buf.length := by omega
  simp only [ansi_loop]
  rw [if_pos hlt, if_pos h]

/-- C9 witness: a buffer that begins with the SAUCE marker decodes to the
initial state unchanged. -/
theorem c9_witness :
    sauce_at [26, 83, 65, 85, 67, 69, 48, 48] 0 = true ∧
    ansi_loop 1 [26, 83, 65, 85, 67, 69, 48, 48] 0 ansi_init = ansi_init :=
  ⟨by decide, c9_sauce_marker_stops_the_scan _ 0 ansi_init 0 (by decide)⟩

/-- C10: the eight-byte input A, newline, B, B, newline, C, C, C decoded as
plain text yields a 3 x 3 canvas (hence at least 3 columns and 3 rows)
whose rows read A, BB, CCC, with every unwritten cell holding the default
blank character (the space, codepoint 32). -/
theorem c10_plain_text_grid :
    (import_text [65, 10, 66, 66, 10, 67, 67, 67]).width = 3 ∧
    (import_text [65, 10, 66, 66, 10, 67, 67, 67]).height = 3 ∧
    (import_text [65, 10, 66, 66, 10, 67, 67, 67]).chars 0 0 = 65 ∧
    (import_text [65, 10, 66, 66, 10, 67, 67, 67]).chars 1 0 = 32 ∧
    (import_text [65, 10, 66, 66, 10, 67, 67, 67]).chars 2 0 = 32 ∧
    (import_text [65, 10, 66, 66, 10, 67, 67, 67]).chars 0 1 = 66 ∧
    (import_text [65, 10, 66, 66, 10, 67, 67, 67]).chars 1 1 = 66 ∧
    (import_text [65, 10, 66, 66, 10, 67, 67, 67]).chars 2 1 = 32 ∧
    (import_text [65, 10, 66, 66, 10, 67, 67, 67]).chars 0 2 = 67 ∧
    (import_text [65, 10, 66, 66, 10, 67, 67, 67]).chars 1 2 = 67 ∧
    (import_text [65, 10, 66, 66, 10, 67, 67, 67]).chars 2 2 = 67 := by decide
